import Mathlib

/-!
Shallow embedding of the arunabha_algo_bot trading engine core, translated
from the Python sources under src/: the candle cache (src/data/cache_manager.py,
src/data/websocket_manager.py), the risk subsystem (src/risk/risk_manager.py,
src/risk/daily_lock.py, src/risk/consecutive_loss.py, src/risk/position_sizing.py)
and the filter orchestrator (src/filters/filter_orchestrator.py,
src/filters/tier1_filters.py, src/filters/tier2_filters.py).

Python floats are embedded as exact rationals (ℚ); millisecond/minute
timestamps and dates as ℤ.  Log calls are dropped; reason / message strings
keep their static prefix with the interpolated numeric part elided, since no
claim depends on the formatted digits.
-/

namespace AlgoBot

/-! ### Configuration constants (src/config.py) -/

def CACHE_SIZE : Nat := 100

def RISK_PER_TRADE : ℚ := 1

def MAX_POSITION_PCT : ℚ := 30

def MIN_POSITION_SIZE : ℚ := 10

def MAX_ATR_PCT : ℚ := 3

def MAX_CONCURRENT : Nat := 1

def MAX_DAILY_DRAWDOWN_PCT : ℚ := -2

def MAX_CONSECUTIVE_LOSSES : Nat := 2

def BREAK_EVEN_AT_R : ℚ := 1/2

def PARTIAL_EXIT_AT_R : ℚ := 1

/-- Cooldown window length; `ConsecutiveLossTracker` times are modelled in
minutes, so this is the raw config value 15. -/
def COOLDOWN_MINUTES : Int := 15

def DAILY_PROFIT_TARGET : ℚ := 500

/-- Embeds `config.MAX_SIGNALS_PER_DAY["default"]`, the value `DailyLock` reads. -/
def MAX_SIGNALS_PER_DAY_default : Nat := 4

/-! ### Enums (src/core/constants.py) -/

inductive MarketType
  | TRENDING
  | CHOPPY
  | HIGH_VOL
  | UNKNOWN
deriving DecidableEq, Repr

inductive TradeDirection
  | LONG
  | SHORT
deriving DecidableEq, Repr

inductive SignalGrade
  | APLUS
  | A
  | BPLUS
  | B
  | C
  | D
deriving DecidableEq, Repr

/-- Embeds `SignalGrade.value`: the string payload of the Python `str`-enum. -/
def SignalGrade.value : SignalGrade → String
  | .APLUS => "A+"
  | .A => "A"
  | .BPLUS => "B+"
  | .B => "B"
  | .C => "C"
  | .D => "D"

/-- Embeds `SignalGrade.from_score` (src/core/constants.py).  The Python annotation
says `int` but the orchestrator passes the float `final_score`; comparisons
are the same over ℚ. -/
def SignalGrade.from_score (score : ℚ) : SignalGrade :=
  if 90 ≤ score then .APLUS
  else if 80 ≤ score then .A
  else if 70 ≤ score then .BPLUS
  else if 60 ≤ score then .B
  else if 50 ≤ score then .C
  else .D

/-- Embeds `SignalGrade.can_trade`: membership of `value` in ["A+","A","B+","B"]. -/
def SignalGrade.can_trade (g : SignalGrade) : Bool :=
  g.value = "A+" || g.value = "A" || g.value = "B+" || g.value = "B"

/-! ### Candles and the per-series cache update (src/data/cache_manager.py)

A candle is the list `[open_time_ms, open, high, low, close, volume]`; the
open time from Binance kline messages is an integer, so `int(candle[0])`
is embedded as the `Int` field itself. -/

structure Candle where
  open_time_ms : Int
  o : ℚ
  h : ℚ
  l : ℚ
  c : ℚ
  v : ℚ
deriving DecidableEq, Repr

/-- One `deque(maxlen=CACHE_SIZE).append(c)`: append on the right, evicting
from the left when the buffer is full. -/
def dequePush (s : List Candle) (c : Candle) : List Candle :=
  if s.length < CACHE_SIZE then s ++ [c]
  else (s.drop (s.length + 1 - CACHE_SIZE)) ++ [c]

namespace CacheManager

/-- Embeds `CacheManager.update_ohlcv` restricted to one series (the body after the
key lookup): if the cache is nonempty and the incoming candle has the same
open time as the latest candle, replace the latest in place; otherwise append
with eviction.  `BinanceWSFeed.update_cache` (src/data/websocket_manager.py)
duplicates exactly this replace-or-append logic per key. -/
def update_ohlcv (s : List Candle) (c : Candle) : List Candle :=
  match s.getLast? with
  | some last =>
      if c.open_time_ms = last.open_time_ms then s.dropLast ++ [c]
      else dequePush s c
  | none => dequePush s c

end CacheManager

/-- The series invariant of the spec: for all indices i < j,
`S[i].open_time_ms < S[j].open_time_ms`. -/
def strictlyIncreasing (s : List Candle) : Prop :=
  s.Pairwise (fun a b => a.open_time_ms < b.open_time_ms)

instance (s : List Candle) : Decidable (strictlyIncreasing s) :=
  inferInstanceAs (Decidable (s.Pairwise _))

/-! ### WebSocket feed (src/data/websocket_manager.py)

`BinanceWSFeed` keeps its own `Dict[Tuple[str, str], deque]` cache, embedded
as an association list keyed by (symbol, timeframe).  A parsed kline message
is the record `_parse_kline` returns; `WebSocketManager._handle_message` is
embedded from the point where parsing succeeded (the claims are about the
cache update and the callback, not about JSON decoding).  The
`on_candle_close` callback is modelled as always registered; an invocation is
recorded by appending the `(symbol, timeframe, open_time_ms)` triple to an
invocation log. -/

abbrev FeedKey := String × String

abbrev FeedCache := List (FeedKey × List Candle)

def FeedCache.get : FeedCache → FeedKey → Option (List Candle)
  | [], _ => none
  | (k, v) :: rest, key => if key = k then some v else FeedCache.get rest key

def FeedCache.set : FeedCache → FeedKey → List Candle → FeedCache
  | [], key, s => [(key, s)]
  | (k, v) :: rest, key, s =>
      if key = k then (k, s) :: rest else (k, v) :: FeedCache.set rest key s

namespace BinanceWSFeed

/-- Embeds `BinanceWSFeed.update_cache`: create the key on first use, then apply the
same replace-or-append logic as `CacheManager.update_ohlcv`. -/
def update_cache (m : FeedCache) (symbol tf : String) (c : Candle) : FeedCache :=
  let key : FeedKey := (symbol, tf)
  let cur := (m.get key).getD []
  m.set key (CacheManager.update_ohlcv cur c)

/-- Embeds `BinanceWSFeed.get_ohlcv`: missing key yields the empty snapshot. -/
def get_ohlcv (m : FeedCache) (symbol tf : String) : List Candle :=
  (m.get (symbol, tf)).getD []

end BinanceWSFeed

/-- A parsed kline message as produced by `_parse_kline`. -/
structure KlineMsg where
  symbol : String
  timeframe : String
  candle : Candle
  is_closed : Bool
deriving DecidableEq, Repr

structure FeedState where
  cache : FeedCache
  invocations : List (String × String × Int)
deriving DecidableEq, Repr

namespace WebSocketManager

/-- Embeds `WebSocketManager._handle_message` after a successful parse: update the
cache, then, if the candle is closed and the snapshot for the key is
nonempty, invoke `on_candle_close` (recorded as one triple in the log). -/
def handle_message (st : FeedState) (msg : KlineMsg) : FeedState :=
  let cache := BinanceWSFeed.update_cache st.cache msg.symbol msg.timeframe msg.candle
  let invocations :=
    if msg.is_closed then
      if BinanceWSFeed.get_ohlcv cache msg.symbol msg.timeframe ≠ [] then
        st.invocations ++ [(msg.symbol, msg.timeframe, msg.candle.open_time_ms)]
      else st.invocations
    else st.invocations
  { cache := cache, invocations := invocations }

/-- The feed execution on a message trace: fold of `handle_message`. -/
def processMessages (st : FeedState) (msgs : List KlineMsg) : FeedState :=
  msgs.foldl handle_message st

end WebSocketManager

/-! ### Daily lock (src/risk/daily_lock.py)

Dates are modelled as day numbers (ℤ); `date.today()` is the explicit
parameter `today`, `datetime.now()` the parameter `now`. -/

structure DailyLock where
  current_date : Int
  daily_pnl : ℚ
  daily_trades : Nat
  daily_wins : Nat
  daily_losses : Nat
  is_locked : Bool
  lock_reason : Option String
  lock_time : Option Int
deriving DecidableEq, Repr

namespace DailyLock

/-- A fresh `DailyLock()` created on `today`. -/
def init (today : Int) : DailyLock :=
  { current_date := today, daily_pnl := 0, daily_trades := 0, daily_wins := 0
    daily_losses := 0, is_locked := false, lock_reason := none, lock_time := none }

/-- Embeds `DailyLock.reset`: clear the daily counters and the lock. -/
def reset (d : DailyLock) : DailyLock :=
  { d with daily_pnl := 0, daily_trades := 0, daily_wins := 0, daily_losses := 0
           is_locked := false, lock_reason := none, lock_time := none }

/-- Embeds `DailyLock._check_date`: reset (and move `current_date`) when a new day
has started. -/
def check_date (d : DailyLock) (today : Int) : DailyLock :=
  if d.current_date < today then { d.reset with current_date := today } else d

/-- Embeds `DailyLock._check_lock_conditions`: lock on profit target, max loss
(`abs MAX_DAILY_DRAWDOWN_PCT`), or max trades
(`MAX_SIGNALS_PER_DAY["default"]`). -/
def check_lock_conditions (d : DailyLock) (now : Int) : DailyLock :=
  if DAILY_PROFIT_TARGET ≤ d.daily_pnl then
    { d with is_locked := true, lock_reason := some "Profit target reached"
             lock_time := some now }
  else if d.daily_pnl ≤ -(|MAX_DAILY_DRAWDOWN_PCT|) then
    { d with is_locked := true, lock_reason := some "Max loss reached"
             lock_time := some now }
  else if MAX_SIGNALS_PER_DAY_default ≤ d.daily_trades then
    { d with is_locked := true, lock_reason := some "Max trades reached"
             lock_time := some now }
  else d

/-- Embeds `DailyLock.update`: accumulate P&L and counters (a trade with
`pnl_pct > 0` is a win, anything else a loss), then check lock conditions. -/
def update (d : DailyLock) (pnl_pct : ℚ) (today now : Int) : DailyLock :=
  let d := d.check_date today
  let d := { d with daily_pnl := d.daily_pnl + pnl_pct
                    daily_trades := d.daily_trades + 1 }
  let d := if 0 < pnl_pct then { d with daily_wins := d.daily_wins + 1 }
           else { d with daily_losses := d.daily_losses + 1 }
  d.check_lock_conditions now

/-- The attribute `reason` read by `RiskManager.can_trade`
(src/risk/risk_manager.py line 47).  daily_lock.py defines `lock_reason`,
`lock_time`, `is_locked`, ... but never an attribute named `reason`, so this
Python attribute lookup raises `AttributeError`; the lookup is embedded as an
`Except` value that is always the error. -/
def attr_reason (_ : DailyLock) : Except String String :=
  .error "AttributeError: DailyLock object has no attribute reason"

end DailyLock

/-! ### Consecutive loss tracker (src/risk/consecutive_loss.py)

Times are in minutes (ℤ); `datetime.now()` is the parameter `now`. -/

structure ConsecutiveLossTracker where
  consecutive_losses : Nat
  last_loss_time : Option Int
  cooling_until : Option Int
  loss_streak_start : Option Int
  recent_results : List (ℚ × Int)
deriving DecidableEq, Repr

namespace ConsecutiveLossTracker

/-- A fresh `ConsecutiveLossTracker()`. -/
def init : ConsecutiveLossTracker :=
  { consecutive_losses := 0, last_loss_time := none, cooling_until := none
    loss_streak_start := none, recent_results := [] }

/-- Embeds `ConsecutiveLossTracker.update`: record the result (history capped at the
last 20 entries); a loss (`pnl_pct < 0`) increments the streak and, on
reaching `MAX_CONSECUTIVE_LOSSES`, activates cooling for `COOLDOWN_MINUTES`;
anything else resets the streak. -/
def update (t : ConsecutiveLossTracker) (pnl_pct : ℚ) (now : Int) :
    ConsecutiveLossTracker :=
  let recent := t.recent_results ++ [(pnl_pct, now)]
  let recent := if 20 < recent.length then recent.drop (recent.length - 20) else recent
  if pnl_pct < 0 then
    let cl := t.consecutive_losses + 1
    { consecutive_losses := cl
      last_loss_time := some now
      cooling_until :=
        if MAX_CONSECUTIVE_LOSSES ≤ cl then some (now + COOLDOWN_MINUTES)
        else t.cooling_until
      loss_streak_start := if cl = 1 then some now else t.loss_streak_start
      recent_results := recent }
  else
    { t with consecutive_losses := 0, loss_streak_start := none
             recent_results := recent }

/-- Embeds `ConsecutiveLossTracker.should_stop`: true while inside an active cooling
window, and also whenever `consecutive_losses ≥ MAX_CONSECUTIVE_LOSSES`. -/
def should_stop (t : ConsecutiveLossTracker) (now : Int) : Bool :=
  match t.cooling_until with
  | some cu =>
      if now < cu then true
      else decide (MAX_CONSECUTIVE_LOSSES ≤ t.consecutive_losses)
  | none => decide (MAX_CONSECUTIVE_LOSSES ≤ t.consecutive_losses)

end ConsecutiveLossTracker

/-! ### Drawdown controller (src/risk/drawdown_controller.py)

Only the fields `can_trade` reads are embedded. -/

structure DrawdownController where
  current_drawdown : ℚ
  max_drawdown_reached : Bool
deriving DecidableEq, Repr

/-- Embeds `DrawdownController.is_max_drawdown_reached`. -/
def DrawdownController.is_max_drawdown_reached (d : DrawdownController) : Bool :=
  d.max_drawdown_reached

/-! ### Risk manager (src/risk/risk_manager.py) -/

structure RiskManager where
  drawdown : DrawdownController
  daily_lock : DailyLock
  loss_tracker : ConsecutiveLossTracker
  /-- The keys of the `active_trades` dict. -/
  active_trades : List String
deriving DecidableEq, Repr

namespace RiskManager

/-- Embeds `RiskManager.can_trade`.  Python may raise out of this method, so the
embedding returns `Except String (Bool × String)`; the only fallible step is
the attribute access `self.daily_lock.reason` in the daily-lock branch, which
always raises (see `DailyLock.attr_reason`).  `market_type` is accepted and
ignored exactly as in the source. -/
def can_trade (rm : RiskManager) (symbol : String) (_market_type : MarketType)
    (now : Int) : Except String (Bool × String) := do
  if rm.daily_lock.is_locked then
    let r ← rm.daily_lock.attr_reason
    return (false, "Daily lock active: " ++ r)
  else if rm.drawdown.is_max_drawdown_reached then
    return (false, "Max drawdown reached")
  else if rm.loss_tracker.should_stop now then
    return (false, "Max consecutive losses: " ++ toString rm.loss_tracker.consecutive_losses)
  else if MAX_CONCURRENT ≤ rm.active_trades.length then
    return (false, "Max concurrent trades")
  else if symbol ∈ rm.active_trades then
    return (false, "Active trade exists for " ++ symbol)
  else
    return (true, "OK")

end RiskManager

/-! ### Active trade lifecycle (src/risk/risk_manager.py, update_trade)

The fields of the per-symbol trade dict that `update_trade` reads or
mutates. -/

structure Trade where
  direction : TradeDirection
  entry : ℚ
  stop_loss : ℚ
  take_profit : ℚ
  partial_exit_done : Bool
  be_triggered : Bool
deriving DecidableEq, Repr

/-- The result dict `update_trade` builds (symbol and price echoed back are
omitted; `action = none` is None in Python). -/
structure TradeUpdateResult where
  current_r : ℚ
  action : Option String
  message : String
deriving DecidableEq, Repr

namespace RiskManager

/-- Embeds `RiskManager.update_trade` for a symbol with an active trade: compute the
R multiple against the current stop, then run the four checks in source
order — partial exit, break-even (which moves the stop to entry), stop loss,
take profit — each later check overwriting `result["action"]` when it fires.
Returns the mutated trade together with the result. -/
def update_trade (trade : Trade) (current_price : ℚ) :
    Trade × TradeUpdateResult :=
  let r_distance :=
    match trade.direction with
    | .LONG => trade.entry - trade.stop_loss
    | .SHORT => trade.stop_loss - trade.entry
  let current_r :=
    if 0 < r_distance then
      match trade.direction with
      | .LONG => (current_price - trade.entry) / r_distance
      | .SHORT => (trade.entry - current_price) / r_distance
    else 0
  -- Check for partial exit (1R)
  let st :=
    if PARTIAL_EXIT_AT_R ≤ current_r ∧ trade.partial_exit_done = false then
      ({ trade with partial_exit_done := true },
       some "PARTIAL_EXIT", "Partial exit")
    else (trade, none, "")
  -- Check for break-even (0.5R); moves SL to entry
  let st :=
    if BREAK_EVEN_AT_R ≤ current_r ∧ st.1.be_triggered = false then
      ({ st.1 with be_triggered := true, stop_loss := st.1.entry },
       some "BREAK_EVEN", "SL moved to entry")
    else st
  -- Check stop loss (against the possibly moved stop)
  let st :=
    match st.1.direction with
    | .LONG =>
        if current_price ≤ st.1.stop_loss then (st.1, some "SL_HIT", "Stop loss hit")
        else st
    | .SHORT =>
        if st.1.stop_loss ≤ current_price then (st.1, some "SL_HIT", "Stop loss hit")
        else st
  -- Check take profit
  let st :=
    match st.1.direction with
    | .LONG =>
        if st.1.take_profit ≤ current_price then (st.1, some "TP_HIT", "Take profit hit")
        else st
    | .SHORT =>
        if current_price ≤ st.1.take_profit then (st.1, some "TP_HIT", "Take profit hit")
        else st
  (st.1, { current_r := current_r, action := st.2.1, message := st.2.2 })

end RiskManager

/-! ### Position sizing (src/risk/position_sizing.py)

The Python builtin `round(x, n)` rounds half to even; over exact rationals this is
`roundHalfEven (x * 10^n) / 10^n`. -/

/-- Round a rational to the nearest integer, ties to the even integer. -/
def roundHalfEven (y : ℚ) : Int :=
  let f := ⌊y⌋
  let r := y - f
  if r < 1/2 then f
  else if 1/2 < r then f + 1
  else if f % 2 = 0 then f else f + 1

/-- Python `round(x, ndigits)` on exact rationals. -/
def pyRound (x : ℚ) (ndigits : Nat) : ℚ :=
  (roundHalfEven (x * 10 ^ ndigits) : ℚ) / 10 ^ ndigits

/-- The non-blocked payload of `PositionSizer.calculate`. -/
structure PositionDetails where
  position_usd : ℚ
  contracts : ℚ
  risk_usd : ℚ
  risk_pct : ℚ
  stop_distance_pct : ℚ
  atr_pct : ℚ
  fear_index : Int
  entry : ℚ
  stop_loss : ℚ
  leverage : ℚ
  max_position : ℚ
deriving DecidableEq, Repr

inductive PositionResult
  | blocked (reason : String)
  | ok (r : PositionDetails)
deriving DecidableEq, Repr

/-- True on the `{"blocked": True, ...}` outcomes. -/
def PositionResult.isBlocked : PositionResult → Bool
  | .blocked _ => true
  | .ok _ => false

namespace PositionSizer

/-- Embeds `PositionSizer._apply_atr_adjustment`. -/
def apply_atr_adjustment (position_usd atr_pct : ℚ) : ℚ :=
  if MAX_ATR_PCT < atr_pct then 0
  else if 5/2 < atr_pct then position_usd * (1/2)
  else if atr_pct < 1/2 then position_usd * (7/10)
  else position_usd

/-- Embeds `PositionSizer._apply_fear_adjustment`. -/
def apply_fear_adjustment (position_usd : ℚ) (fear_index : Int) : ℚ :=
  if fear_index < 20 then position_usd * (1/2)
  else if fear_index < 40 then position_usd * (4/5)
  else if 75 < fear_index then position_usd * (3/10)
  else if 60 < fear_index then position_usd * (7/10)
  else position_usd

/-- Embeds `PositionSizer._apply_market_adjustment`. -/
def apply_market_adjustment (position_usd : ℚ) : MarketType → ℚ
  | .TRENDING => position_usd * 1
  | .CHOPPY => position_usd * (4/5)
  | .HIGH_VOL => position_usd * (1/2)
  | .UNKNOWN => position_usd * (9/10)

/-- Embeds `PositionSizer.calculate`.  `custom_risk_pct` follows Python truthiness:
`some 0` falls back to `RISK_PER_TRADE` exactly like `None`. -/
def calculate (account_size entry stop_loss atr_pct : ℚ) (fear_index : Int)
    (market_type : MarketType) (custom_risk_pct : Option ℚ) : PositionResult :=
  if account_size ≤ 0 then .blocked "Invalid account size"
  else if entry ≤ 0 ∨ stop_loss ≤ 0 then .blocked "Invalid price levels"
  else if entry = stop_loss then .blocked "Entry equals stop loss"
  else
    let stop_distance := |entry - stop_loss|
    let stop_distance_pct := stop_distance / entry * 100
    if stop_distance_pct < 1/10 then .blocked "Stop too tight"
    else if 5 < stop_distance_pct then .blocked "Stop too wide"
    else
      let risk_pct :=
        match custom_risk_pct with
        | some c => if c = 0 then RISK_PER_TRADE else c
        | none => RISK_PER_TRADE
      let risk_amount := account_size * (risk_pct / 100)
      let position_usd := risk_amount / (stop_distance_pct / 100)
      let position_usd := apply_atr_adjustment position_usd atr_pct
      let position_usd := apply_fear_adjustment position_usd fear_index
      let position_usd := apply_market_adjustment position_usd market_type
      let max_position := account_size * (MAX_POSITION_PCT / 100)
      let position_usd := min position_usd max_position
      if position_usd < MIN_POSITION_SIZE then .blocked "Position too small"
      else
        .ok { position_usd := pyRound position_usd 2
              contracts := pyRound (position_usd / entry) 4
              risk_usd := pyRound risk_amount 2
              risk_pct := risk_pct
              stop_distance_pct := pyRound stop_distance_pct 2
              atr_pct := pyRound atr_pct 2
              fear_index := fear_index
              entry := entry
              stop_loss := stop_loss
              leverage := position_usd / account_size
              max_position := max_position }

end PositionSizer

/-! ### Filter pipeline (src/filters/)

The nine Tier-2 sub-filter checks and the five Tier-1 gate checks compute
over market data (numpy arrays, order books, the wall clock); their outcomes
are taken as inputs here, and the orchestration — which is what the claims
quantify over — is embedded faithfully: `Tier1Filters.evaluate_all` is the
conjunction of the five gate outcomes, `Tier2Filters.evaluate_all` sums the
nine scores into a percentage of the max weight and compares it with the
market-type threshold, and `FilterOrchestrator.evaluate` combines them with
the Tier-3 bonus into a `FilterResult`. -/

/-- The five Tier-1 gate outcomes, in source order.  The dict key
"structure" is a Lean keyword and is embedded as `market_structure`. -/
structure Tier1Outcomes where
  btc_regime : Bool
  market_structure : Bool
  volume : Bool
  liquidity : Bool
  session : Bool
deriving DecidableEq, Repr

/-- Embeds `Tier1Filters.evaluate_all`: `all(r["passed"] for r in results)`. -/
def Tier1Filters.evaluate_all (t : Tier1Outcomes) : Bool :=
  t.btc_regime && t.market_structure && t.volume && t.liquidity && t.session

/-- One Tier-2 sub-filter outcome `(passed, score, message)`; the message is
not used by the orchestration. -/
structure Tier2Check where
  passed : Bool
  score : ℚ
deriving DecidableEq, Repr

/-- The nine Tier-2 sub-filter outcomes, in source order. -/
structure Tier2Outcomes where
  mtf_confirmation : Tier2Check
  volume_profile : Tier2Check
  funding_rate : Tier2Check
  open_interest : Tier2Check
  rsi_divergence : Tier2Check
  ema_stack : Tier2Check
  atr_percent : Tier2Check
  vwap_position : Tier2Check
  support_resistance : Tier2Check
deriving DecidableEq, Repr

namespace Tier2Filters

/-- Embeds `sum(self.weights.values())` for `config.TIER2_FILTERS`
(20+15+10+10+15+10+10+5+5). -/
def max_score : ℚ := 20 + 15 + 10 + 10 + 15 + 10 + 10 + 5 + 5

/-- Embeds `Tier2Filters._get_threshold`. -/
def get_threshold : MarketType → ℚ
  | .TRENDING => 60
  | .CHOPPY => 55
  | .HIGH_VOL => 65
  | .UNKNOWN => 60

/-- Embeds `total_score` accumulated across the nine checks. -/
def total_score (t : Tier2Outcomes) : ℚ :=
  t.mtf_confirmation.score + t.volume_profile.score + t.funding_rate.score +
    t.open_interest.score + t.rsi_divergence.score + t.ema_stack.score +
    t.atr_percent.score + t.vwap_position.score + t.support_resistance.score

/-- Embeds `Tier2Filters.evaluate_all` reduced to its outputs
`(passed, percentage)`: percentage of the max weight, compared with the
market-type threshold. -/
def evaluate_all (t : Tier2Outcomes) (market_type : MarketType) : Bool × ℚ :=
  let percentage := if 0 < max_score then total_score t / max_score * 100 else 0
  let threshold := get_threshold market_type
  (decide (threshold ≤ percentage), percentage)

end Tier2Filters

/-- The fields of the result dict of the orchestrator that the claims are about. -/
structure FilterResult where
  passed : Bool
  score : ℚ
  grade : SignalGrade
  reason : String
deriving DecidableEq, Repr

namespace FilterOrchestrator

/-- Embeds `FilterOrchestrator.evaluate`: Tier-1 short-circuit, Tier-2 percentage
gate, Tier-3 bonus capped into `min 100`, `SignalGrade.from_score`, and the
final `grade.can_trade` decision.  `tier3_bonus` is the total
`Tier3Filters.evaluate_all` returns. -/
def evaluate (t1 : Tier1Outcomes) (t2 : Tier2Outcomes)
    (market_type : MarketType) (tier3_bonus : ℚ) : FilterResult :=
  let tier1_passed := Tier1Filters.evaluate_all t1
  if tier1_passed = false then
    { passed := false, score := 0, grade := .D, reason := "Tier1 filters failed" }
  else
    let t2res := Tier2Filters.evaluate_all t2 market_type
    if t2res.1 = false then
      { passed := false, score := t2res.2, grade := .C
        reason := "Tier2 score too low" }
    else
      let final_score := min 100 (t2res.2 + tier3_bonus)
      let grade := SignalGrade.from_score final_score
      if grade.can_trade then
        { passed := true, score := final_score, grade := grade
          reason := "All filters passed" }
      else
        { passed := false, score := final_score, grade := grade
          reason := "Final grade too low" }

end FilterOrchestrator

/-! ### Concrete inputs used by the counterexamples and witnesses -/

def candle1 : Candle := ⟨1, 0, 0, 0, 0, 0⟩

def candle2 : Candle := ⟨2, 0, 0, 0, 0, 0⟩

/-- The closed candle message of end-to-end scenario 6, delivered twice. -/
def c2msg : KlineMsg :=
  { symbol := "BTC/USDT", timeframe := "15m"
    candle := ⟨1000, 1, 1, 1, 1, 1⟩, is_closed := true }

/-- The approved LONG trade of end-to-end scenario 4: entry 100, stop 98,
take profit 106, no lifecycle flag set yet. -/
def c3trade : Trade :=
  { direction := .LONG, entry := 100, stop_loss := 98, take_profit := 106
    partial_exit_done := false, be_triggered := false }

/-- A risk manager whose daily lock has engaged (profit target reached). -/
def lockedRiskManager : RiskManager :=
  { drawdown := ⟨0, false⟩
    daily_lock := { DailyLock.init 0 with
                    is_locked := true
                    lock_reason := some "Profit target reached" }
    loss_tracker := .init
    active_trades := [] }

/-- The tracker after the two losing trades of scenario 5 (closed at minutes
0 and 1). -/
def c7tracker : ConsecutiveLossTracker :=
  (ConsecutiveLossTracker.init.update (-1) 0).update (-1) 1

/-- A risk manager carrying `c7tracker`, with no lock, no drawdown and no
open trades. -/
def c7riskManager : RiskManager :=
  { drawdown := ⟨0, false⟩, daily_lock := .init 0
    loss_tracker := c7tracker, active_trades := [] }

/-- The exact result of `calculate` on account 33.36, entry 100, stop 99.5,
ATR% 1, fear 50, market UNKNOWN: the capped pre-rounding size is 10.008 and
`round(·, 2)` returns 10.01. -/
def c6details : PositionDetails :=
  { position_usd := 1001/100, contracts := 1001/10000, risk_usd := 33/100
    risk_pct := 1, stop_distance_pct := 1/2, atr_pct := 1, fear_index := 50
    entry := 100, stop_loss := 199/2, leverage := 3/10, max_position := 1251/125 }

/-- The Tier-1 outcomes of end-to-end scenario 1: all five gates pass. -/
def c1tier1 : Tier1Outcomes := ⟨true, true, true, true, true⟩

/-- Tier-2 outcomes scoring 78 of 100 (scenario 1). -/
def c1tier2 : Tier2Outcomes :=
  ⟨⟨true, 20⟩, ⟨true, 15⟩, ⟨true, 10⟩, ⟨true, 10⟩, ⟨true, 15⟩,
   ⟨false, 0⟩, ⟨false, 0⟩, ⟨true, 5⟩, ⟨true, 3⟩⟩


/-! ## Lemmas about the cache update -/

lemma getLast?_dequePush (s : List Candle) (c : Candle) :
    (dequePush s c).getLast? = some c := by
  unfold dequePush
  split <;> exact List.getLast?_concat _

lemma getLast?_update_ohlcv (s : List Candle) (c : Candle) :
    (CacheManager.update_ohlcv s c).getLast? = some c := by
  cases hl : s.getLast? with
  | none =>
      simp only [CacheManager.update_ohlcv, hl]
      exact getLast?_dequePush s c
  | some last =>
      simp only [CacheManager.update_ohlcv, hl]
      by_cases hc : c.open_time_ms = last.open_time_ms
      · rw [if_pos hc]
        exact List.getLast?_concat _
      · rw [if_neg hc]
        exact getLast?_dequePush s c

lemma dropLast_concat_getLast? (l : List Candle) (a : Candle)
    (h : l.getLast? = some a) : l.dropLast ++ [a] = l := by
  induction l using List.reverseRecOn with
  | nil => simp at h
  | append_singleton l' b _ =>
      rw [List.getLast?_concat] at h
      obtain rfl : b = a := by injection h
      rw [List.dropLast_concat]

lemma update_ohlcv_ne_nil (s : List Candle) (c : Candle) :
    CacheManager.update_ohlcv s c ≠ [] := by
  intro h
  have := getLast?_update_ohlcv s c
  rw [h] at this
  simp at this

/-- Appending a candle strictly later than the whole buffer preserves the
series invariant, through the deque eviction. -/
lemma strictlyIncreasing_dequePush (s : List Candle) (c : Candle)
    (hs : strictlyIncreasing s)
    (hall : ∀ a ∈ s, a.open_time_ms < c.open_time_ms) :
    strictlyIncreasing (dequePush s c) := by
  have hfull : strictlyIncreasing (s ++ [c]) := by
    rw [strictlyIncreasing, List.pairwise_append]
    exact ⟨hs, List.pairwise_singleton _ _, fun a ha b hb => by
      simp only [List.mem_singleton] at hb
      subst hb
      exact hall a ha⟩
  unfold dequePush
  split
  · exact hfull
  · exact hfull.sublist ((List.drop_sublist _ s).append_right [c])

/-- Claim C5 preservation direction, under the ordering hypothesis forced by
the counterexample: a fed candle no older than the latest one keeps the
series strictly increasing. -/
theorem update_ohlcv_preserves_monotonic (s : List Candle) (c : Candle)
    (hs : strictlyIncreasing s)
    (h : ∀ last, s.getLast? = some last → last.open_time_ms ≤ c.open_time_ms) :
    strictlyIncreasing (CacheManager.update_ohlcv s c) := by
  cases hl : s.getLast? with
  | none =>
      have hnil : s = [] := List.getLast?_eq_none_iff.mp hl
      subst hnil
      simp only [CacheManager.update_ohlcv, hl]
      exact strictlyIncreasing_dequePush [] c hs (by simp)
  | some last =>
      have hle := h last hl
      have hdecomp := dropLast_concat_getLast? s last hl
      have hs' : strictlyIncreasing (s.dropLast ++ [last]) := by
        rwa [hdecomp]
      rw [strictlyIncreasing, List.pairwise_append] at hs'
      simp only [CacheManager.update_ohlcv, hl]
      by_cases hc : c.open_time_ms = last.open_time_ms
      · rw [if_pos hc]
        rw [strictlyIncreasing, List.pairwise_append]
        refine ⟨hs'.1, List.pairwise_singleton _ _, fun a ha b hb => ?_⟩
        simp only [List.mem_singleton] at hb
        subst hb
        have := hs'.2.2 a ha last (by simp)
        omega
      · rw [if_neg hc]
        have hlt : last.open_time_ms < c.open_time_ms := by
          rcases lt_or_eq_of_le hle with h' | h'
          · exact h'
          · exact absurd h'.symm hc
        refine strictlyIncreasing_dequePush s c hs fun a ha => ?_
        rw [← hdecomp] at ha
        rcases List.mem_append.mp ha with ha' | ha'
        · have := hs'.2.2 a ha' last (by simp)
          omega
        · simp only [List.mem_singleton] at ha'
          subst ha'
          exact hlt

/-- A series whose last candle already is the fed candle is left unchanged by
the replace-in-place branch. -/
lemma update_ohlcv_last_eq (u : List Candle) (c : Candle)
    (hu : u.getLast? = some c) : CacheManager.update_ohlcv u c = u := by
  simp only [CacheManager.update_ohlcv, hu, if_pos rfl]
  exact dropLast_concat_getLast? u c hu

/-! ## Concrete candles used in the series counterexamples and witnesses -/

/-- Claim C5, counterexample: the code never checks ordering on append, so
feeding an older candle (open time 1) after a newer one (open time 2)
appends it and the stored sequence is no longer strictly increasing.  The
claim as stated, quantifying over every sequence of update operations, is
therefore false. -/
theorem out_of_order_update_breaks_monotonicity :
    strictlyIncreasing [candle2] ∧
      ¬ strictlyIncreasing (CacheManager.update_ohlcv [candle2] candle1) := by
  decide

/-- Witness for `update_ohlcv_preserves_monotonic` at a concrete input. -/
theorem update_ohlcv_preserves_monotonic_witness :
    strictlyIncreasing (CacheManager.update_ohlcv [candle1] candle2) :=
  update_ohlcv_preserves_monotonic [candle1] candle2 (by decide)
    (fun last hlast => by
      simp only [List.getLast?_singleton] at hlast
      rw [← Option.some_inj.mp hlast]
      decide)

/-- Claim C8: feeding the identical candle twice leaves the cache exactly as
feeding it once — after the first update the candle is the latest entry, so
the second update takes the replace-in-place branch and replaces it with
itself.  The ordering hypothesis mirrors the claim; the proof does not even
need it. -/
theorem update_ohlcv_idempotent (s : List Candle) (c : Candle)
    (_h : ∀ last, s.getLast? = some last → last.open_time_ms ≤ c.open_time_ms) :
    CacheManager.update_ohlcv (CacheManager.update_ohlcv s c) c =
      CacheManager.update_ohlcv s c :=
  update_ohlcv_last_eq _ c (getLast?_update_ohlcv s c)

/-! ## Lemmas about the feed -/

lemma FeedCache.get_set (m : FeedCache) (k : FeedKey) (s : List Candle) :
    (m.set k s).get k = some s := by
  induction m with
  | nil => simp [FeedCache.set, FeedCache.get]
  | cons head tail ih =>
      by_cases hk : k = head.1
      · simp [FeedCache.set, FeedCache.get, hk]
      · simp [FeedCache.set, FeedCache.get, hk, ih]

lemma get_ohlcv_update_cache (m : FeedCache) (symbol tf : String) (c : Candle) :
    BinanceWSFeed.get_ohlcv (BinanceWSFeed.update_cache m symbol tf c) symbol tf =
      CacheManager.update_ohlcv ((m.get (symbol, tf)).getD []) c := by
  simp [BinanceWSFeed.get_ohlcv, BinanceWSFeed.update_cache, FeedCache.get_set]

/-- One handled message appends one invocation iff it is a closed candle: the
snapshot guard in `_handle_message` never suppresses the callback, because
the cache entry just updated is nonempty. -/
lemma handle_message_invocations (st : FeedState) (msg : KlineMsg) :
    (WebSocketManager.handle_message st msg).invocations =
      st.invocations ++
        (if msg.is_closed then [(msg.symbol, msg.timeframe, msg.candle.open_time_ms)]
         else []) := by
  simp only [WebSocketManager.handle_message]
  by_cases hc : msg.is_closed
  · simp [hc, get_ohlcv_update_cache, update_ohlcv_ne_nil]
  · simp [hc]

/-- Claim C2, amended: `on_candle_close` fires exactly once per closed-candle
message processed — the invocation log grows by the triples of the closed
messages, in order, with no deduplication; a redelivered duplicate therefore
fires the callback again. -/
theorem invocations_eq_closed_messages (st : FeedState) (msgs : List KlineMsg) :
    (WebSocketManager.processMessages st msgs).invocations =
      st.invocations ++
        msgs.filterMap (fun m =>
          if m.is_closed then some (m.symbol, m.timeframe, m.candle.open_time_ms)
          else none) := by
  induction msgs generalizing st with
  | nil => simp [WebSocketManager.processMessages]
  | cons m rest ih =>
      have hstep : WebSocketManager.processMessages st (m :: rest) =
          WebSocketManager.processMessages (WebSocketManager.handle_message st m) rest := by
        simp [WebSocketManager.processMessages]
      rw [hstep, ih, handle_message_invocations]
      by_cases hc : m.is_closed <;> simp [hc]

/-- Claim C2, counterexample: redelivering the same closed candle after a
reconnect invokes `on_candle_close` twice for the same
`(symbol, timeframe, open_time_ms)` triple — there is no dedup set in
`_handle_message`, so the exactly-once claim is false. -/
theorem duplicate_close_invokes_twice :
    (WebSocketManager.processMessages ⟨[], []⟩ [c2msg, c2msg]).invocations.count
        ("BTC/USDT", "15m", (1000 : Int)) = 2 := by
  decide

/-- Witness for `update_ohlcv_idempotent` at a concrete input. -/
theorem update_ohlcv_idempotent_witness :
    CacheManager.update_ohlcv (CacheManager.update_ohlcv [candle1] candle2) candle2 =
      CacheManager.update_ohlcv [candle1] candle2 :=
  update_ohlcv_idempotent [candle1] candle2
    (fun last hlast => by
      simp only [List.getLast?_singleton] at hlast
      rw [← Option.some_inj.mp hlast]
      decide)

/-! ## Trade lifecycle claims -/

/-- Claim C3: on the tick where R first reaches 1.0 (price 102) with neither
flag set, the code sets `partial_exit_done` but the break-even check, which
runs afterwards in the same call, overwrites `result["action"]`, so the
returned lifecycle event is BREAK_EVEN and the PARTIAL_EXIT event claimed by
the spec is never emitted. -/
theorem partial_exit_tick_returns_break_even :
    (RiskManager.update_trade c3trade 102).2.current_r = 1 ∧
      (RiskManager.update_trade c3trade 102).2.action = some "BREAK_EVEN" ∧
      (RiskManager.update_trade c3trade 102).1.partial_exit_done = true ∧
      (RiskManager.update_trade c3trade 102).1.stop_loss = 100 := by
  norm_num [RiskManager.update_trade, c3trade, PARTIAL_EXIT_AT_R, BREAK_EVEN_AT_R]

/-- Claim C9: once break-even has been applied (`be_triggered` with the stop
moved to entry), the R distance is zero, so `update_trade` computes
`current_r = 0` at every price and can never return a PARTIAL_EXIT event. -/
theorem no_partial_exit_after_break_even (t : Trade) (p : ℚ)
    (hbe : t.be_triggered = true) (hsl : t.stop_loss = t.entry) :
    (RiskManager.update_trade t p).2.current_r = 0 ∧
      (RiskManager.update_trade t p).2.action ≠ some "PARTIAL_EXIT" := by
  obtain ⟨dir, entry, sl, tp, ped, bet⟩ := t
  simp only at hbe hsl
  subst hbe hsl
  cases dir <;>
    · simp only [RiskManager.update_trade, sub_self, lt_irrefl, if_false,
        PARTIAL_EXIT_AT_R, BREAK_EVEN_AT_R]
      norm_num
      split_ifs <;> simp

/-- Witness for `no_partial_exit_after_break_even` at a concrete input. -/
theorem no_partial_exit_after_break_even_witness :
    (RiskManager.update_trade
        ⟨.LONG, 100, 100, 106, true, true⟩ 105).2.current_r = 0 ∧
      (RiskManager.update_trade
          ⟨.LONG, 100, 100, 106, true, true⟩ 105).2.action ≠ some "PARTIAL_EXIT" :=
  no_partial_exit_after_break_even ⟨.LONG, 100, 100, 106, true, true⟩ 105 rfl rfl

/-! ## Risk gate claims -/

/-- Claim C4: whenever the daily lock is engaged, `can_trade` does not return
`(false, reason)` — it raises `AttributeError`, because the locked branch
reads `self.daily_lock.reason` while daily_lock.py only ever defines
`lock_reason`.  The compute path is not total. -/
theorem can_trade_locked_attribute_error (rm : RiskManager) (symbol : String)
    (mt : MarketType) (now : Int) (h : rm.daily_lock.is_locked = true) :
    rm.can_trade symbol mt now =
      .error "AttributeError: DailyLock object has no attribute reason" := by
  simp [RiskManager.can_trade, h, DailyLock.attr_reason]

/-- Witness for `can_trade_locked_attribute_error` at a concrete state. -/
theorem can_trade_locked_attribute_error_witness :
    lockedRiskManager.can_trade "BTC/USDT" .UNKNOWN 0 =
      .error "AttributeError: DailyLock object has no attribute reason" :=
  can_trade_locked_attribute_error lockedRiskManager "BTC/USDT" .UNKNOWN 0 rfl

/-- Claim C7, counterexample: the cooldown window opened at minute 1 ends at
minute 16, yet at minute 17 — with no further closed trades —
`should_stop` still returns true (its second check compares
`consecutive_losses` with the maximum, independent of the window) and
`can_trade` still returns false for the consecutive-loss reason.  The claim
that the block lifts when the window elapses is false. -/
theorem cooldown_expiry_still_blocked :
    c7tracker.cooling_until = some 16 ∧
      c7tracker.should_stop 17 = true ∧
      c7riskManager.can_trade "BTC/USDT" .UNKNOWN 17 =
        .ok (false, "Max consecutive losses: 2") := by
  refine ⟨?_, ?_, ?_⟩ <;>
      norm_num [c7tracker, c7riskManager, ConsecutiveLossTracker.update,
        ConsecutiveLossTracker.init, ConsecutiveLossTracker.should_stop,
        RiskManager.can_trade, DailyLock.init, DrawdownController.is_max_drawdown_reached,
        MAX_CONSECUTIVE_LOSSES, COOLDOWN_MINUTES]
  rfl

/-- Claim C7, amended: after `MAX_CONSECUTIVE_LOSSES` consecutive losses the
cooldown window opens, and `can_trade` returns false for the
consecutive-loss reason at every later instant — during the window and after
it elapses alike — until a winning trade or a reset clears the streak. -/
theorem consecutive_losses_block_until_win (rm : RiskManager) (symbol : String)
    (mt : MarketType) (now t1 t2 : Int) (p1 p2 : ℚ)
    (hp1 : p1 < 0) (hp2 : p2 < 0)
    (hrm : rm.loss_tracker = (ConsecutiveLossTracker.init.update p1 t1).update p2 t2)
    (hlock : rm.daily_lock.is_locked = false)
    (hdd : rm.drawdown.max_drawdown_reached = false) :
    rm.loss_tracker.consecutive_losses = 2 ∧
      rm.loss_tracker.cooling_until = some (t2 + COOLDOWN_MINUTES) ∧
      rm.can_trade symbol mt now = .ok (false, "Max consecutive losses: 2") := by
  have ht : rm.loss_tracker =
      { consecutive_losses := 2, last_loss_time := some t2
        cooling_until := some (t2 + COOLDOWN_MINUTES)
        loss_streak_start := some t1
        recent_results := [(p1, t1), (p2, t2)] } := by
    rw [hrm]
    norm_num [ConsecutiveLossTracker.update, ConsecutiveLossTracker.init,
      hp1, hp2, MAX_CONSECUTIVE_LOSSES]
  have hstop : rm.loss_tracker.should_stop now = true := by
    rw [ht]
    simp only [ConsecutiveLossTracker.should_stop]
    split_ifs <;> simp [MAX_CONSECUTIVE_LOSSES]
  have hcl : rm.loss_tracker.consecutive_losses = 2 := by rw [ht]
  refine ⟨hcl, by rw [ht], ?_⟩
  simp only [RiskManager.can_trade, hlock, hdd,
    DrawdownController.is_max_drawdown_reached, hstop, hcl, Bool.false_eq_true,
    if_false, if_true]
  rfl

/-- Witness for `consecutive_losses_block_until_win` at a concrete state. -/
theorem consecutive_losses_block_until_win_witness :
    c7riskManager.loss_tracker.consecutive_losses = 2 ∧
      c7riskManager.loss_tracker.cooling_until = some (1 + COOLDOWN_MINUTES) ∧
      c7riskManager.can_trade "ETH/USDT" .TRENDING 30 =
        .ok (false, "Max consecutive losses: 2") :=
  consecutive_losses_block_until_win c7riskManager "ETH/USDT" .TRENDING 30 0 1
    (-1) (-1) (by norm_num) (by norm_num) (by rfl) rfl rfl

/-- Embeds `check_lock_conditions` only sets the lock fields; the win/loss counters
pass through unchanged. -/
lemma check_lock_conditions_daily_losses (d : DailyLock) (now : Int) :
    (d.check_lock_conditions now).daily_losses = d.daily_losses := by
  unfold DailyLock.check_lock_conditions
  split_ifs <;> rfl

/-- Claim C10: a closed trade with `pnl_pct = 0` is counted as a loss by
`DailyLock.update` (its win test is `pnl_pct > 0`) but as a win by
`ConsecutiveLossTracker.update` (its loss test is `pnl_pct < 0`), which
resets the consecutive-loss streak.  The date hypothesis rules out the daily
rollover reset inside `DailyLock.update`. -/
theorem zero_pnl_loss_win_mismatch (d : DailyLock) (t : ConsecutiveLossTracker)
    (today now tnow : Int) (hdate : ¬ d.current_date < today) :
    (d.update 0 today now).daily_losses = d.daily_losses + 1 ∧
      (t.update 0 tnow).consecutive_losses = 0 ∧
      (t.update 0 tnow).loss_streak_start = none := by
  refine ⟨?_, ?_, ?_⟩
  · simp only [DailyLock.update, DailyLock.check_date, if_neg hdate]
    rw [check_lock_conditions_daily_losses]
    norm_num
  · norm_num [ConsecutiveLossTracker.update]
  · norm_num [ConsecutiveLossTracker.update]

/-- Witness for `zero_pnl_loss_win_mismatch` at a concrete state. -/
theorem zero_pnl_loss_win_mismatch_witness :
    ((DailyLock.init 5).update 0 5 100).daily_losses = (DailyLock.init 5).daily_losses + 1 ∧
      (ConsecutiveLossTracker.init.update 0 100).consecutive_losses = 0 ∧
      (ConsecutiveLossTracker.init.update 0 100).loss_streak_start = none :=
  zero_pnl_loss_win_mismatch (DailyLock.init 5) ConsecutiveLossTracker.init
    5 100 100 (by decide)

/-! ## Position sizing claims -/

lemma floor_le_roundHalfEven (y : ℚ) : ⌊y⌋ ≤ roundHalfEven y := by
  simp only [roundHalfEven]
  split_ifs <;> omega

lemma roundHalfEven_le_add_half (y : ℚ) : (roundHalfEven y : ℚ) ≤ y + 1/2 := by
  have hfl := Int.floor_le y
  simp only [roundHalfEven]
  split_ifs with h1 h2 h3
  · linarith
  · push_cast
    linarith
  · linarith
  · have he : y - (⌊y⌋ : ℚ) = 1/2 := le_antisymm (not_lt.mp h2) (not_lt.mp h1)
    push_cast
    linarith

lemma le_pyRound_of_le (m : ℤ) (x : ℚ) (n : ℕ) (h : (m : ℚ) ≤ x) :
    (m : ℚ) ≤ pyRound x n := by
  unfold pyRound
  have h10 : (0 : ℚ) < 10 ^ n := by positivity
  rw [le_div_iff₀ h10]
  have h1 : (m : ℚ) * 10 ^ n ≤ x * 10 ^ n := mul_le_mul_of_nonneg_right h h10.le
  have h2 : ((m * 10 ^ n : ℤ) : ℚ) ≤ x * 10 ^ n := by push_cast; linarith
  have h3 : m * 10 ^ n ≤ ⌊x * 10 ^ n⌋ := Int.le_floor.mpr h2
  have h4 := floor_le_roundHalfEven (x * 10 ^ n)
  have h5 : ((m * 10 ^ n : ℤ) : ℚ) ≤ (roundHalfEven (x * 10 ^ n) : ℚ) := by
    exact_mod_cast le_trans h3 h4
  push_cast at h5
  linarith

lemma pyRound_le_add (x : ℚ) (n : ℕ) : pyRound x n ≤ x + 1 / (2 * 10 ^ n) := by
  unfold pyRound
  have h10 : (0 : ℚ) < 10 ^ n := by positivity
  rw [div_le_iff₀ h10]
  have h1 := roundHalfEven_le_add_half (x * 10 ^ n)
  have h2 : (x + 1 / (2 * 10 ^ n)) * 10 ^ n = x * 10 ^ n + 1/2 := by
    field_simp
    ring
  linarith

/-- Degenerate stop inputs — entry equal to stop, stop distance below 0.1%
of entry or above 5% of entry — always produce a blocked result. -/
lemma calculate_blocked_of_degenerate (account entry stop atr : ℚ) (fear : Int)
    (mt : MarketType) (crp : Option ℚ)
    (h : entry = stop ∨ |entry - stop| / entry * 100 < 1/10 ∨
      5 < |entry - stop| / entry * 100) :
    (PositionSizer.calculate account entry stop atr fear mt crp).isBlocked = true := by
  simp only [PositionSizer.calculate]
  split_ifs with h1 h2 h3 h4 h5 h6 <;> try rfl
  rcases h with h | h | h
  · exact absurd h h3
  · exact absurd h h4
  · exact absurd h h5

/-- Any non-blocked result of `calculate` is floored at `MIN_POSITION_SIZE`
and stays within half a cent of the `MAX_POSITION_PCT` cap. -/
lemma calculate_ok_bounds (account entry stop atr : ℚ) (fear : Int)
    (mt : MarketType) (crp : Option ℚ) (r : PositionDetails)
    (hr : PositionSizer.calculate account entry stop atr fear mt crp = .ok r) :
    MIN_POSITION_SIZE ≤ r.position_usd ∧
      r.position_usd ≤ MAX_POSITION_PCT / 100 * account + 1/200 := by
  simp only [PositionSizer.calculate] at hr
  split_ifs at hr with h1 h2 h3 h4 h5 h6
  rw [PositionResult.ok.injEq] at hr
  subst hr
  push_neg at h6
  simp only
  constructor
  · have h10 := le_pyRound_of_le 10 _ 2 (by exact_mod_cast h6 :
      ((10 : ℤ) : ℚ) ≤ _)
    rw [MIN_POSITION_SIZE]
    exact_mod_cast h10
  · refine le_trans (pyRound_le_add _ 2) ?_
    refine le_trans (add_le_add_right (min_le_right _ _) _) ?_
    rw [show MAX_POSITION_PCT / 100 * account = account * (MAX_POSITION_PCT / 100) by ring]
    norm_num

/-- Claim C6, amended: the degenerate-stop inputs are blocked exactly as
claimed, and a non-blocked result is floored at `MIN_POSITION_SIZE`, but the
returned `position_usd` is `round(x, 2)` of the capped value and can exceed
the `MAX_POSITION_PCT` cap by up to half a cent, so the upper bound only
holds with a `1/200` allowance. -/
theorem calculate_blocked_and_bounds (account entry stop atr : ℚ) (fear : Int)
    (mt : MarketType) (crp : Option ℚ) :
    ((entry = stop ∨ |entry - stop| / entry * 100 < 1/10 ∨
        5 < |entry - stop| / entry * 100) →
      (PositionSizer.calculate account entry stop atr fear mt crp).isBlocked = true) ∧
      (∀ r, PositionSizer.calculate account entry stop atr fear mt crp = .ok r →
        MIN_POSITION_SIZE ≤ r.position_usd ∧
          r.position_usd ≤ MAX_POSITION_PCT / 100 * account + 1/200) :=
  ⟨calculate_blocked_of_degenerate account entry stop atr fear mt crp,
   calculate_ok_bounds account entry stop atr fear mt crp⟩

lemma calculate_at_c6input :
    PositionSizer.calculate (834/25) 100 (199/2) 1 50 .UNKNOWN none =
      .ok c6details := by
  norm_num [PositionSizer.calculate, c6details, pyRound, roundHalfEven,
    PositionSizer.apply_atr_adjustment, PositionSizer.apply_fear_adjustment,
    PositionSizer.apply_market_adjustment, RISK_PER_TRADE, MAX_POSITION_PCT,
    MIN_POSITION_SIZE, MAX_ATR_PCT, min_def, abs_of_pos, Int.fract]

/-- Claim C6, counterexample: on account 33.36 the cap is
`MAX_POSITION_PCT·account = 10.008`, the non-blocked result rounds the
capped size to two decimals, and the returned `position_usd = 10.01`
exceeds the cap, so the claimed upper bound is false as stated. -/
theorem rounding_exceeds_position_cap :
    PositionSizer.calculate (834/25) 100 (199/2) 1 50 .UNKNOWN none =
        .ok c6details ∧
      MAX_POSITION_PCT / 100 * (834/25) < c6details.position_usd :=
  ⟨calculate_at_c6input, by norm_num [c6details, MAX_POSITION_PCT]⟩

/-- Witness for `calculate_blocked_and_bounds` at a concrete input. -/
theorem calculate_blocked_and_bounds_witness :
    MIN_POSITION_SIZE ≤ c6details.position_usd ∧
      c6details.position_usd ≤ MAX_POSITION_PCT / 100 * (834/25) + 1/200 :=
  (calculate_blocked_and_bounds (834/25) 100 (199/2) 1 50 .UNKNOWN none).2
    c6details calculate_at_c6input

/-! ## Filter orchestrator claims -/

lemma evaluate_all_fst (t2 : Tier2Outcomes) (mt : MarketType) :
    (Tier2Filters.evaluate_all t2 mt).1 =
      decide (Tier2Filters.get_threshold mt ≤ (Tier2Filters.evaluate_all t2 mt).2) :=
  rfl

lemma get_threshold_le_100 (mt : MarketType) :
    Tier2Filters.get_threshold mt ≤ 100 := by
  cases mt <;> norm_num [Tier2Filters.get_threshold]

/-- Claim C1: a filter result passes exactly when all five Tier-1 gates
passed, the final score reaches the market-type threshold (trending 60,
choppy 55, high-vol 65, unknown 60), and the grade assigned from the score
is one of A+, A, B+, B (`SignalGrade.can_trade`).  The Tier-3 bonus is
nonnegative, as every bonus in tier3_filters.py is. -/
theorem filter_passed_iff_gates_score_grade (t1 : Tier1Outcomes)
    (t2 : Tier2Outcomes) (mt : MarketType) (b : ℚ) (hb : 0 ≤ b) :
    (FilterOrchestrator.evaluate t1 t2 mt b).passed =
      (Tier1Filters.evaluate_all t1 &&
        decide (Tier2Filters.get_threshold mt ≤
          (FilterOrchestrator.evaluate t1 t2 mt b).score) &&
        (SignalGrade.from_score
          (FilterOrchestrator.evaluate t1 t2 mt b).score).can_trade) := by
  by_cases h1 : Tier1Filters.evaluate_all t1 = true
  case neg =>
    have h1' : Tier1Filters.evaluate_all t1 = false := by
      cases hE : Tier1Filters.evaluate_all t1
      · rfl
      · exact absurd hE h1
    have hth : ¬ Tier2Filters.get_threshold mt ≤ (0 : ℚ) := by
      cases mt <;> norm_num [Tier2Filters.get_threshold]
    simp [FilterOrchestrator.evaluate, h1', hth]
  case pos =>
    by_cases h2 : Tier2Filters.get_threshold mt ≤ (Tier2Filters.evaluate_all t2 mt).2
    · have hfst : (Tier2Filters.evaluate_all t2 mt).1 = true := by
        rw [evaluate_all_fst]
        exact decide_eq_true h2
      have hfinal : Tier2Filters.get_threshold mt ≤
          min 100 ((Tier2Filters.evaluate_all t2 mt).2 + b) :=
        le_min (get_threshold_le_100 mt) (by linarith)
      by_cases hg : (SignalGrade.from_score
          (min 100 ((Tier2Filters.evaluate_all t2 mt).2 + b))).can_trade = true
      · simp [FilterOrchestrator.evaluate, h1, hfst, hg, hfinal]
      · simp only [Bool.not_eq_true] at hg
        simp [FilterOrchestrator.evaluate, h1, hfst, hg, hfinal]
    · have hfst : (Tier2Filters.evaluate_all t2 mt).1 = false := by
        rw [evaluate_all_fst]
        exact decide_eq_false h2
      simp [FilterOrchestrator.evaluate, h1, hfst, h2]

/-- Witness for `filter_passed_iff_gates_score_grade` at a concrete input. -/
theorem filter_passed_iff_gates_score_grade_witness :
    (FilterOrchestrator.evaluate c1tier1 c1tier2 .TRENDING 0).passed =
      (Tier1Filters.evaluate_all c1tier1 &&
        decide (Tier2Filters.get_threshold .TRENDING ≤
          (FilterOrchestrator.evaluate c1tier1 c1tier2 .TRENDING 0).score) &&
        (SignalGrade.from_score
          (FilterOrchestrator.evaluate c1tier1 c1tier2 .TRENDING 0).score).can_trade) :=
  filter_passed_iff_gates_score_grade c1tier1 c1tier2 .TRENDING 0 (by norm_num)

end AlgoBot
